import Mathlib

/-!
Shallow embedding of the libcpu segment-selector / GDT / control-register /
CPUID subsystems (src/src/x86/mod.rs, src/src/x86/gdt.rs, src/src/x86/cpuid.rs,
src/src/x86/macros.rs, src/src/arm/macros.rs, src/src/arm/mod.rs).

Machine integers are modelled as `Nat` with explicit `% 2 ^ w` where the Rust
code can wrap; Rust code that can hit the `Invalid privilege level` abort or
the bit_field `value does not fit into bit range` assertion is modelled with
`Option` (`none` = abort).
-/

/-- Embedding of the bit_field crate's `get_bits(lo..hi)`: the bits of the
half-open range `[lo, hi)`, for values below the register width. -/
def getBits (x lo hi : Nat) : Nat := (x >>> lo) % 2 ^ (hi - lo)

/-- Embedding of the bit_field crate's `set_bits(lo..hi, v)`: replaces the bits
of `[lo, hi)` by `v`; the crate asserts that `v` fits in `hi - lo` bits and
aborts otherwise, modelled by `none`. -/
def setBits (x lo hi v : Nat) : Option Nat :=
  if v < 2 ^ (hi - lo) then some (((x >>> hi) <<< hi) + (v <<< lo) + x % 2 ^ lo) else none

/-- Embedding of the bit_field crate's `set_bit(n, b)`. -/
def setBit (x n : Nat) (b : Bool) : Nat :=
  ((x >>> (n + 1)) <<< (n + 1)) + ((if b then 1 else 0) <<< n) + x % 2 ^ n

/-- `PrivilegeLevel` from src/src/x86/mod.rs with its `repr(u8)` discriminants
0x00, 0x20, 0x40, 0x60. -/
inductive PrivilegeLevel where
  | KernelSpace
  | Ring1
  | Ring2
  | UserSpace
deriving DecidableEq

/-- The `repr(u8)` discriminant of each `PrivilegeLevel` variant (the value of
`privilege as u8` / `privilege as u16` in the Rust code). -/
def PrivilegeLevel.toBits : PrivilegeLevel → Nat
  | .KernelSpace => 0x00
  | .Ring1 => 0x20
  | .Ring2 => 0x40
  | .UserSpace => 0x60

/-- `impl From<u16> for PrivilegeLevel` (src/src/x86/mod.rs lines 80-91): it
matches 0x0, 0x1, 0x2 and 0x4 and aborts (`Invalid privilege level`) on every
other value; the abort is modelled by `none`. -/
def PrivilegeLevel.fromU16 : Nat → Option PrivilegeLevel
  | 0x0 => some .KernelSpace
  | 0x1 => some .Ring1
  | 0x2 => some .Ring2
  | 0x4 => some .UserSpace
  | _ => none

/-- `DescriptorTable` from src/src/x86/mod.rs with discriminants GDT = 0b0000
and LDT = 0b1000. -/
inductive DescriptorTable where
  | GDT
  | LDT
deriving DecidableEq

/-- The `repr(u8)` discriminant (the value of `table as u16`). -/
def DescriptorTable.toBits : DescriptorTable → Nat
  | .GDT => 0b0000
  | .LDT => 0b1000

/-- `impl From<DescriptorTable> for bool`. -/
def DescriptorTable.toBool : DescriptorTable → Bool
  | .GDT => false
  | .LDT => true

/-- `impl From<bool> for DescriptorTable`. -/
def DescriptorTable.ofBool : Bool → DescriptorTable
  | false => .GDT
  | true => .LDT

/-- `SegmentSelector(pub u16)` from src/src/x86/mod.rs; `val` is the u16 payload. -/
structure SegmentSelector where
  val : Nat
deriving DecidableEq

/-- `SegmentSelector::new`: `Self((index << 3) | (table as u16) | (privilege as u16 >> 5))`
in u16 arithmetic (the shift of `index` silently drops bits above bit 15). -/
def SegmentSelector.new (index : Nat) (table : DescriptorTable) (privilege : PrivilegeLevel) :
    SegmentSelector :=
  ⟨((index <<< 3) % 2 ^ 16) ||| table.toBits ||| (privilege.toBits >>> 5)⟩

/-- `SegmentSelector::index`: `self.0 >> 3`. -/
def SegmentSelector.index (s : SegmentSelector) : Nat := s.val >>> 3

/-- `SegmentSelector::table`: `DescriptorTable::from(self.0.get_bit(2))`. -/
def SegmentSelector.table (s : SegmentSelector) : DescriptorTable :=
  DescriptorTable.ofBool (s.val.testBit 2)

/-- `SegmentSelector::privilege_level`: `PrivilegeLevel::from(self.0.get_bits(0..2))`;
`none` models the `Invalid privilege level` abort inside the `From` impl. -/
def SegmentSelector.privilege_level (s : SegmentSelector) : Option PrivilegeLevel :=
  PrivilegeLevel.fromU16 (getBits s.val 0 2)

/-- `SegmentSelector::set_index`: `self.0.set_bits(0..16, index)`. -/
def SegmentSelector.set_index (s : SegmentSelector) (index : Nat) : Option SegmentSelector :=
  (setBits s.val 0 16 index).map SegmentSelector.mk

/-- `SegmentSelector::set_table`: `self.0.set_bit(2, descriptor_table.into())`. -/
def SegmentSelector.set_table (s : SegmentSelector) (t : DescriptorTable) : SegmentSelector :=
  ⟨setBit s.val 2 t.toBool⟩

/-- `SegmentSelector::set_privilege_level`: `self.0.set_bits(0..2, level as u16)`;
`none` models the bit_field assertion failure when `level as u16` does not fit
in two bits. -/
def SegmentSelector.set_privilege_level (s : SegmentSelector) (level : PrivilegeLevel) :
    Option SegmentSelector :=
  (setBits s.val 0 2 level.toBits).map SegmentSelector.mk

/-- The `Access` bitflags from src/src/x86/gdt.rs (u8 masks). -/
def Access.ACCESSED : Nat := 0b00000001

/-- `Access::PRESENT`. -/
def Access.PRESENT : Nat := 0b10000000

/-- `Access::USER_SEGMENT`. -/
def Access.USER_SEGMENT : Nat := 0b00010000

/-- `Access::EXECUTABLE`. -/
def Access.EXECUTABLE : Nat := 0b00001000

/-- `Access::READABLE`. -/
def Access.READABLE : Nat := 0b00000010

/-- `Access::WRITABLE`. -/
def Access.WRITABLE : Nat := 0b00000010

/-- `Flags::GRANULARITY` from src/src/x86/gdt.rs. -/
def Flags.GRANULARITY : Nat := 0b10000000

/-- `Flags::SIZE`. -/
def Flags.SIZE : Nat := 0b01000000

/-- `Flags::LONG_MODE`. -/
def Flags.LONG_MODE : Nat := 0b00100000

/-- `GDTDescriptor` from src/src/x86/gdt.rs: u16/u16/u8/u8/u8/u8 fields in
declaration order. -/
structure GDTDescriptor where
  lower_limit_address : Nat
  lower_base_address : Nat
  middle_base_address : Nat
  access : Nat
  flags : Nat
  higher_base_address : Nat
deriving DecidableEq

/-- `GDTDescriptor::new(base_address, limit_address, privilege, access, flags)`
(src/src/x86/gdt.rs lines 204-214): the `access` and `flags` parameters are the
u8 bit patterns of the `Access` and `Flags` sets.  Note that the source stores
`(base_address >> 16) as u8` in BOTH `middle_base_address` and
`higher_base_address`. -/
def GDTDescriptor.new (base_address limit_address : Nat) (privilege : PrivilegeLevel)
    (access flags : Nat) : GDTDescriptor where
  lower_limit_address := limit_address % 2 ^ 16
  lower_base_address := base_address % 2 ^ 16
  middle_base_address := (base_address >>> 16) % 2 ^ 8
  access := getBits limit_address 0 3 ||| access ||| privilege.toBits
  flags := flags
  higher_base_address := (base_address >>> 16) % 2 ^ 8

/-- `GDTDescriptor::null()`. -/
def GDTDescriptor.null : GDTDescriptor where
  lower_limit_address := 0
  lower_base_address := 0
  middle_base_address := 0
  access := 0
  flags := 0
  higher_base_address := 0

/-- `GDTDescriptor::code_segment(level)`. -/
def GDTDescriptor.code_segment (level : PrivilegeLevel) : GDTDescriptor :=
  GDTDescriptor.new 0x00000000 0xFFFFF level
    (Access.PRESENT ||| Access.ACCESSED ||| Access.USER_SEGMENT ||| Access.READABLE |||
      Access.EXECUTABLE)
    (Flags.GRANULARITY ||| Flags.LONG_MODE)

/-- `GDTDescriptor::data_segment(level)`. -/
def GDTDescriptor.data_segment (level : PrivilegeLevel) : GDTDescriptor :=
  GDTDescriptor.new 0x00000000 0xFFFFF level
    (Access.PRESENT ||| Access.ACCESSED ||| Access.USER_SEGMENT ||| Access.WRITABLE)
    (Flags.GRANULARITY ||| Flags.LONG_MODE)

/-- `GDTDescriptor::privilege_level`: `PrivilegeLevel::from(self.access.get_bits(5..7) as u16)`;
`none` models the `Invalid privilege level` abort. -/
def GDTDescriptor.privilege_level (d : GDTDescriptor) : Option PrivilegeLevel :=
  PrivilegeLevel.fromU16 (getBits d.access 5 7)

/-- `GlobalDescriptorTable` from src/src/x86/gdt.rs: the 8192-slot descriptor
array is modelled as a function from slot index to descriptor, plus `count`. -/
structure GlobalDescriptorTable where
  descriptors : Nat → GDTDescriptor
  count : Nat

/-- `GlobalDescriptorTable::new()`: all slots null, `count = 1`. -/
def GlobalDescriptorTable.new : GlobalDescriptorTable where
  descriptors := fun _ => GDTDescriptor.null
  count := 1

/-- `GlobalDescriptorTable::push` (src/src/x86/gdt.rs lines 352-364).  The
second component models the control flow: `some none` is the early
`return None` when `count + 1 >= 8192` (table unmodified), `some (some s)` is
`Some(selector)`, and `none` is the `Invalid privilege level` abort raised by
`descriptor.privilege_level()` after the store and increment have happened. -/
def GlobalDescriptorTable.push (t : GlobalDescriptorTable) (descriptor : GDTDescriptor) :
    GlobalDescriptorTable × Option (Option SegmentSelector) :=
  if 8192 ≤ t.count + 1 then (t, some none)
  else
    let t' : GlobalDescriptorTable :=
      ⟨fun i => if i = t.count then descriptor else t.descriptors i, t.count + 1⟩
    match descriptor.privilege_level with
    | none => (t', none)
    | some p => (t', some (some (SegmentSelector.new t.count .GDT p)))

/-- Sequencing of `push` calls: returns the final table state and the list of
outcomes, one per pushed descriptor (same encoding as in `GlobalDescriptorTable.push`). -/
def pushAll (t : GlobalDescriptorTable) :
    List GDTDescriptor → GlobalDescriptorTable × List (Option (Option SegmentSelector))
  | [] => (t, [])
  | d :: rest =>
    let r := t.push d
    let r2 := pushAll r.1 rest
    (r2.1, r.2 :: r2.2)

/-- `CR0Flags` bit masks from src/src/x86/mod.rs. -/
def CR0Flags.bitsList : List Nat :=
  [1 <<< 0, 1 <<< 1, 1 <<< 2, 1 <<< 3, 1 <<< 4, 1 <<< 5, 1 <<< 16, 1 <<< 18,
   1 <<< 29, 1 <<< 30, 1 <<< 31]

/-- The union of all named `CR0Flags` bits (the mask kept by `from_bits_truncate`). -/
def CR0Flags.mask : Nat := CR0Flags.bitsList.foldr (· ||| ·) 0

/-- `CR3Flags` bit masks from src/src/x86/mod.rs. -/
def CR3Flags.bitsList : List Nat := [1 <<< 3, 1 <<< 4]

/-- The union of all named `CR3Flags` bits. -/
def CR3Flags.mask : Nat := CR3Flags.bitsList.foldr (· ||| ·) 0

/-- `CR4Flags` bit masks from src/src/x86/mod.rs. -/
def CR4Flags.bitsList : List Nat :=
  [1 <<< 0, 1 <<< 1, 1 <<< 2, 1 <<< 3, 1 <<< 4, 1 <<< 5, 1 <<< 6, 1 <<< 7,
   1 <<< 8, 1 <<< 9, 1 <<< 10, 1 <<< 11, 1 <<< 13, 1 <<< 14, 1 <<< 16, 1 <<< 17,
   1 <<< 18, 1 <<< 20, 1 <<< 21, 1 <<< 22, 1 <<< 23, 1 <<< 34]

/-- The union of all named `CR4Flags` bits. -/
def CR4Flags.mask : Nat := CR4Flags.bitsList.foldr (· ||| ·) 0

/-- The `get_<name>` function generated by `cpu_register!` (src/src/x86/macros.rs
lines 62-88) for a register with a flags struct: it reads the raw register and
returns `Flags::from_bits_truncate(value)`, i.e. the raw value with every bit
outside the named mask dropped.  The raw register value is the explicit `raw`
argument. -/
def cpu_register_get (mask raw : Nat) : Nat := raw &&& mask

/-- The `set_<name>` function generated by `cpu_register!`: it writes
`(value | get_<name>()).bits()` back to the register; the result is the new raw
register value. -/
def cpu_register_set (mask value raw : Nat) : Nat := value ||| cpu_register_get mask raw

/-- `get_cr0` as generated by `cpu_register!(cr0, "cr0", CR0Flags)`. -/
def get_cr0 (raw : Nat) : Nat := cpu_register_get CR0Flags.mask raw

/-- `set_cr0` as generated by `cpu_register!(cr0, "cr0", CR0Flags)`; `value` is
the bit pattern of the `CR0Flags` argument. -/
def set_cr0 (value raw : Nat) : Nat := cpu_register_set CR0Flags.mask value raw

/-- `get_cr3` as generated by `cpu_register!(cr3, "cr3", CR3Flags)`. -/
def get_cr3 (raw : Nat) : Nat := cpu_register_get CR3Flags.mask raw

/-- `set_cr3` as generated by `cpu_register!(cr3, "cr3", CR3Flags)`. -/
def set_cr3 (value raw : Nat) : Nat := cpu_register_set CR3Flags.mask value raw

/-- `get_cr4` as generated by `cpu_register!(cr4, "cr4", CR4Flags)`. -/
def get_cr4 (raw : Nat) : Nat := cpu_register_get CR4Flags.mask raw

/-- `set_cr4` as generated by `cpu_register!(cr4, "cr4", CR4Flags)`. -/
def set_cr4 (value raw : Nat) : Nat := cpu_register_set CR4Flags.mask value raw

/-- `CPUIDRequest` from src/src/x86/cpuid.rs. -/
inductive CPUIDRequest where
  | Features
  | ExtendedFeatures1
  | ExtendedFeatures2
  | ExtendedFeatures3
  | ExtendedFeatures4
deriving DecidableEq

/-- `CPUIDRequest::leaf`. -/
def CPUIDRequest.leaf : CPUIDRequest → Nat
  | .Features => 1
  | .ExtendedFeatures1 => 7
  | .ExtendedFeatures2 => 7
  | .ExtendedFeatures3 => 7
  | .ExtendedFeatures4 => 0x80000001

/-- `CPUIDRequest::sub_leaf`. -/
def CPUIDRequest.sub_leaf : CPUIDRequest → Option Nat
  | .ExtendedFeatures1 => some 0
  | .ExtendedFeatures2 => some 1
  | .ExtendedFeatures3 => some 2
  | _ => none

/-- `core::arch::x86_64::CpuidResult`: the four u32 output registers of one
hardware query. -/
structure CpuidResult where
  eax : Nat
  ebx : Nat
  ecx : Nat
  edx : Nat
deriving DecidableEq

/-- The output-register names a catalog entry can designate. -/
inductive CPUIDRegister where
  | eax
  | ebx
  | ecx
  | edx
deriving DecidableEq

/-- Field access `cpuid.$register` used by the expanded `enabled_features_by`. -/
def CpuidResult.reg (c : CpuidResult) : CPUIDRegister → Nat
  | .eax => c.eax
  | .ebx => c.ebx
  | .ecx => c.ecx
  | .edx => c.edx

/-- One entry of the `cpu_features!` catalog: the variant name, its designated
output register, its `CPUIDRequest` and its bit mask. -/
structure FeatureSpec where
  tag : String
  reg : CPUIDRegister
  request : CPUIDRequest
  mask : Nat
deriving DecidableEq

/-- Chunk 1 of the `CPUFeature` catalog declared by `cpu_features!` in
src/src/x86/mod.rs lines 375-587, in declaration order. -/
def catalogChunk1 : List FeatureSpec := [
  ⟨"SSE3", .ecx, .Features, 1 <<< 0⟩,
  ⟨"PCLMUL", .ecx, .Features, 1 <<< 1⟩,
  ⟨"DTES64", .ecx, .Features, 1 <<< 2⟩,
  ⟨"MONITOR", .ecx, .Features, 1 <<< 3⟩,
  ⟨"DS_CPL", .ecx, .Features, 1 <<< 4⟩,
  ⟨"VMX", .ecx, .Features, 1 <<< 5⟩,
  ⟨"SMX", .ecx, .Features, 1 <<< 6⟩,
  ⟨"EST", .ecx, .Features, 1 <<< 7⟩,
  ⟨"TM2", .ecx, .Features, 1 <<< 8⟩,
  ⟨"SSSE3", .ecx, .Features, 1 <<< 9⟩,
  ⟨"CID", .ecx, .Features, 1 <<< 10⟩,
  ⟨"SDBG", .ecx, .Features, 1 <<< 11⟩,
  ⟨"FMA", .ecx, .Features, 1 <<< 12⟩,
  ⟨"CX16", .ecx, .Features, 1 <<< 13⟩,
  ⟨"XTPR", .ecx, .Features, 1 <<< 14⟩,
  ⟨"PDCM", .ecx, .Features, 1 <<< 15⟩,
  ⟨"PCID", .ecx, .Features, 1 <<< 17⟩,
  ⟨"DCA", .ecx, .Features, 1 <<< 18⟩,
  ⟨"SSE4_1", .ecx, .Features, 1 <<< 19⟩,
  ⟨"SSE4_2", .ecx, .Features, 1 <<< 20⟩,
  ⟨"X2APIC", .ecx, .Features, 1 <<< 21⟩,
  ⟨"MOVBE", .ecx, .Features, 1 <<< 22⟩,
  ⟨"POPCNT", .ecx, .Features, 1 <<< 23⟩,
  ⟨"TSCDeadline", .ecx, .Features, 1 <<< 24⟩,
  ⟨"AES", .ecx, .Features, 1 <<< 25⟩,
  ⟨"XSAVE", .ecx, .Features, 1 <<< 26⟩,
  ⟨"OSXSAVE", .ecx, .Features, 1 <<< 27⟩,
  ⟨"AVX", .ecx, .Features, 1 <<< 28⟩,
  ⟨"F16C", .ecx, .Features, 1 <<< 29⟩,
  ⟨"RDRAND", .ecx, .Features, 1 <<< 30⟩,
  ⟨"HYPERVISOR", .ecx, .Features, 1 <<< 31⟩,
  ⟨"FPU", .edx, .Features, 1 <<< 0⟩,
  ⟨"VME", .edx, .Features, 1 <<< 1⟩,
  ⟨"DE", .edx, .Features, 1 <<< 2⟩,
  ⟨"PSE", .edx, .Features, 1 <<< 3⟩,
  ⟨"TSC", .edx, .Features, 1 <<< 4⟩,
  ⟨"MSR", .edx, .Features, 1 <<< 5⟩,
  ⟨"PAE", .edx, .Features, 1 <<< 6⟩,
  ⟨"MCE", .edx, .Features, 1 <<< 7⟩,
  ⟨"CX8", .edx, .Features, 1 <<< 8⟩
]

/-- Chunk 2 of the `CPUFeature` catalog declared by `cpu_features!` in
src/src/x86/mod.rs lines 375-587, in declaration order. -/
def catalogChunk2 : List FeatureSpec := [
  ⟨"APIC", .edx, .Features, 1 <<< 9⟩,
  ⟨"SEP", .edx, .Features, 1 <<< 11⟩,
  ⟨"MTRR", .edx, .Features, 1 <<< 12⟩,
  ⟨"PGE", .edx, .Features, 1 <<< 13⟩,
  ⟨"MCA", .edx, .Features, 1 <<< 14⟩,
  ⟨"CMOV", .edx, .Features, 1 <<< 15⟩,
  ⟨"PAT", .edx, .Features, 1 <<< 16⟩,
  ⟨"PSE36", .edx, .Features, 1 <<< 17⟩,
  ⟨"PSN", .edx, .Features, 1 <<< 18⟩,
  ⟨"CLFLUSH", .edx, .Features, 1 <<< 19⟩,
  ⟨"NX_Itanium", .edx, .Features, 1 <<< 20⟩,
  ⟨"DS", .edx, .Features, 1 <<< 21⟩,
  ⟨"ACPI", .edx, .Features, 1 <<< 22⟩,
  ⟨"MMX", .edx, .Features, 1 <<< 23⟩,
  ⟨"FXSR", .edx, .Features, 1 <<< 24⟩,
  ⟨"SSE", .edx, .Features, 1 <<< 25⟩,
  ⟨"SSE2", .edx, .Features, 1 <<< 26⟩,
  ⟨"SS", .edx, .Features, 1 <<< 27⟩,
  ⟨"HTT", .edx, .Features, 1 <<< 28⟩,
  ⟨"TM", .edx, .Features, 1 <<< 29⟩,
  ⟨"IA64", .edx, .Features, 1 <<< 30⟩,
  ⟨"PBE", .edx, .Features, 1 <<< 31⟩,
  ⟨"FSGSBase", .ebx, .ExtendedFeatures1, 1 <<< 0⟩,
  ⟨"SGX", .ebx, .ExtendedFeatures1, 1 <<< 2⟩,
  ⟨"BMI1", .ebx, .ExtendedFeatures1, 1 <<< 3⟩,
  ⟨"HLE", .ebx, .ExtendedFeatures1, 1 <<< 4⟩,
  ⟨"AVX2", .ebx, .ExtendedFeatures1, 1 <<< 5⟩,
  ⟨"FDP_EXCPTN_ONLY", .ebx, .ExtendedFeatures1, 1 <<< 6⟩,
  ⟨"SMEP", .ebx, .ExtendedFeatures1, 1 <<< 7⟩,
  ⟨"BMI2", .ebx, .ExtendedFeatures1, 1 <<< 8⟩,
  ⟨"ERMS", .ebx, .ExtendedFeatures1, 1 <<< 9⟩,
  ⟨"INVPCID", .ebx, .ExtendedFeatures1, 1 <<< 10⟩,
  ⟨"RTM", .ebx, .ExtendedFeatures1, 1 <<< 11⟩,
  ⟨"PQM", .ebx, .ExtendedFeatures1, 1 <<< 12⟩,
  ⟨"MPX", .ebx, .ExtendedFeatures1, 1 <<< 14⟩,
  ⟨"AVX512F", .ebx, .ExtendedFeatures1, 1 <<< 16⟩,
  ⟨"AVX512DQ", .ebx, .ExtendedFeatures1, 1 <<< 17⟩,
  ⟨"RDSEED", .ebx, .ExtendedFeatures1, 1 <<< 18⟩,
  ⟨"ADX", .ebx, .ExtendedFeatures1, 1 <<< 19⟩,
  ⟨"SMAP", .ebx, .ExtendedFeatures1, 1 <<< 20⟩
]

/-- Chunk 3 of the `CPUFeature` catalog declared by `cpu_features!` in
src/src/x86/mod.rs lines 375-587, in declaration order. -/
def catalogChunk3 : List FeatureSpec := [
  ⟨"AVX512_IFMA", .ebx, .ExtendedFeatures1, 1 <<< 21⟩,
  ⟨"PCOMMIT", .ebx, .ExtendedFeatures1, 1 <<< 22⟩,
  ⟨"CFLUSHOPT", .ebx, .ExtendedFeatures1, 1 <<< 23⟩,
  ⟨"CLWB", .ebx, .ExtendedFeatures1, 1 <<< 24⟩,
  ⟨"PT", .ebx, .ExtendedFeatures1, 1 <<< 25⟩,
  ⟨"AVX512PF", .ebx, .ExtendedFeatures1, 1 <<< 26⟩,
  ⟨"AVX512ER", .ebx, .ExtendedFeatures1, 1 <<< 27⟩,
  ⟨"AVX512CD", .ebx, .ExtendedFeatures1, 1 <<< 28⟩,
  ⟨"SHA", .ebx, .ExtendedFeatures1, 1 <<< 29⟩,
  ⟨"AVX512BW", .ebx, .ExtendedFeatures1, 1 <<< 30⟩,
  ⟨"AVX512VI", .ebx, .ExtendedFeatures1, 1 <<< 31⟩,
  ⟨"PreFetchWT1", .ecx, .ExtendedFeatures1, 1 <<< 0⟩,
  ⟨"AVX512VBMI", .ecx, .ExtendedFeatures1, 1 <<< 1⟩,
  ⟨"UMIP", .ecx, .ExtendedFeatures1, 1 <<< 2⟩,
  ⟨"PKU", .ecx, .ExtendedFeatures1, 1 <<< 3⟩,
  ⟨"OSPKE", .ecx, .ExtendedFeatures1, 1 <<< 4⟩,
  ⟨"WAITKG", .ecx, .ExtendedFeatures1, 1 <<< 5⟩,
  ⟨"AVX512VBMI2", .ecx, .ExtendedFeatures1, 1 <<< 6⟩,
  ⟨"ShadowStack", .ecx, .ExtendedFeatures1, 1 <<< 7⟩,
  ⟨"GFNI", .ecx, .ExtendedFeatures1, 1 <<< 8⟩,
  ⟨"VAES", .ecx, .ExtendedFeatures1, 1 <<< 9⟩,
  ⟨"VPCLMULQDQ", .ecx, .ExtendedFeatures1, 1 <<< 10⟩,
  ⟨"AVX512VNNI", .ecx, .ExtendedFeatures1, 1 <<< 11⟩,
  ⟨"AVX512BITALG", .ecx, .ExtendedFeatures1, 1 <<< 12⟩,
  ⟨"TME", .ecx, .ExtendedFeatures1, 1 <<< 13⟩,
  ⟨"AVX512VPOPCNTDQ", .ecx, .ExtendedFeatures1, 1 <<< 14⟩,
  ⟨"LA57", .ecx, .ExtendedFeatures1, 1 <<< 16⟩,
  ⟨"RDPID", .ecx, .ExtendedFeatures1, 1 <<< 22⟩,
  ⟨"KL", .ecx, .ExtendedFeatures1, 1 <<< 23⟩,
  ⟨"BusLockDetect", .ecx, .ExtendedFeatures1, 1 <<< 24⟩,
  ⟨"CIDEMOTE", .ecx, .ExtendedFeatures1, 1 <<< 25⟩,
  ⟨"MOVDIRI", .ecx, .ExtendedFeatures1, 1 <<< 27⟩,
  ⟨"MOBDIR64B", .ecx, .ExtendedFeatures1, 1 <<< 28⟩,
  ⟨"ENQCMD", .ecx, .ExtendedFeatures1, 1 <<< 29⟩,
  ⟨"SGXLC", .ecx, .ExtendedFeatures1, 1 <<< 30⟩,
  ⟨"PKS", .ecx, .ExtendedFeatures1, 1 <<< 31⟩,
  ⟨"SGXKeys", .edx, .ExtendedFeatures1, 1 <<< 1⟩,
  ⟨"AVX512_4VNNIW", .edx, .ExtendedFeatures1, 1 <<< 2⟩,
  ⟨"AVX512_4FMAPS", .edx, .ExtendedFeatures1, 1 <<< 3⟩,
  ⟨"FSRM", .edx, .ExtendedFeatures1, 1 <<< 4⟩
]

/-- Chunk 4 of the `CPUFeature` catalog declared by `cpu_features!` in
src/src/x86/mod.rs lines 375-587, in declaration order. -/
def catalogChunk4 : List FeatureSpec := [
  ⟨"UINTR", .edx, .ExtendedFeatures1, 1 <<< 5⟩,
  ⟨"AVX512VP2INTERSECT", .edx, .ExtendedFeatures1, 1 <<< 8⟩,
  ⟨"SRDBS_CTRL", .edx, .ExtendedFeatures1, 1 <<< 9⟩,
  ⟨"MCClear", .edx, .ExtendedFeatures1, 1 <<< 10⟩,
  ⟨"RTMAlwaysAbort", .edx, .ExtendedFeatures1, 1 <<< 11⟩,
  ⟨"TSXForceAbort", .edx, .ExtendedFeatures1, 1 <<< 13⟩,
  ⟨"SERIALIZE", .edx, .ExtendedFeatures1, 1 <<< 14⟩,
  ⟨"HYBRID", .edx, .ExtendedFeatures1, 1 <<< 15⟩,
  ⟨"TSXLDTRK", .edx, .ExtendedFeatures1, 1 <<< 16⟩,
  ⟨"PCONFIG", .edx, .ExtendedFeatures1, 1 <<< 18⟩,
  ⟨"IBR", .edx, .ExtendedFeatures1, 1 <<< 19⟩,
  ⟨"CET_IBT", .edx, .ExtendedFeatures1, 1 <<< 20⟩,
  ⟨"AMXBF16", .edx, .ExtendedFeatures1, 1 <<< 22⟩,
  ⟨"AVS512FP16", .edx, .ExtendedFeatures1, 1 <<< 23⟩,
  ⟨"AMXTile", .edx, .ExtendedFeatures1, 1 <<< 24⟩,
  ⟨"AMXInt8", .edx, .ExtendedFeatures1, 1 <<< 25⟩,
  ⟨"SpecControl", .edx, .ExtendedFeatures1, 1 <<< 26⟩,
  ⟨"STIBP", .edx, .ExtendedFeatures1, 1 <<< 27⟩,
  ⟨"L1DFlush", .edx, .ExtendedFeatures1, 1 <<< 28⟩,
  ⟨"SSBD", .edx, .ExtendedFeatures1, 1 <<< 31⟩,
  ⟨"SHA512Extensions", .eax, .ExtendedFeatures2, 1 <<< 0⟩,
  ⟨"SM3", .eax, .ExtendedFeatures2, 1 <<< 1⟩,
  ⟨"SM4", .eax, .ExtendedFeatures2, 1 <<< 2⟩,
  ⟨"RAO_INT", .eax, .ExtendedFeatures2, 1 <<< 3⟩,
  ⟨"AVX_VNNI", .eax, .ExtendedFeatures2, 1 <<< 4⟩,
  ⟨"AVX512BF16", .eax, .ExtendedFeatures2, 1 <<< 5⟩,
  ⟨"LASS", .eax, .ExtendedFeatures2, 1 <<< 6⟩,
  ⟨"CMPCCXADD", .eax, .ExtendedFeatures2, 1 <<< 7⟩,
  ⟨"ARCHPerfMonExt", .eax, .ExtendedFeatures2, 1 <<< 8⟩,
  ⟨"FastZeroRepMOVSB", .eax, .ExtendedFeatures2, 1 <<< 10⟩,
  ⟨"FastShortRepSTOSB", .eax, .ExtendedFeatures2, 1 <<< 11⟩,
  ⟨"FastShortRepCMPSB", .eax, .ExtendedFeatures2, 1 <<< 12⟩,
  ⟨"FRED", .eax, .ExtendedFeatures2, 1 <<< 17⟩,
  ⟨"LKGS", .eax, .ExtendedFeatures2, 1 <<< 18⟩,
  ⟨"WRMSRNS", .eax, .ExtendedFeatures2, 1 <<< 19⟩,
  ⟨"AMXFP16", .eax, .ExtendedFeatures2, 1 <<< 21⟩,
  ⟨"HReset", .eax, .ExtendedFeatures2, 1 <<< 22⟩,
  ⟨"LAM", .eax, .ExtendedFeatures2, 1 <<< 26⟩,
  ⟨"MSRList", .eax, .ExtendedFeatures2, 1 <<< 27⟩,
  ⟨"PPIN", .ebx, .ExtendedFeatures2, 1 <<< 0⟩
]

/-- Chunk 5 of the `CPUFeature` catalog declared by `cpu_features!` in
src/src/x86/mod.rs lines 375-587, in declaration order. -/
def catalogChunk5 : List FeatureSpec := [
  ⟨"PKNDKB", .ebx, .ExtendedFeatures2, 1 <<< 1⟩,
  ⟨"AVX_VNNI_INT8", .edx, .ExtendedFeatures2, 1 <<< 4⟩,
  ⟨"AVX_NE_CONVERT", .edx, .ExtendedFeatures2, 1 <<< 5⟩,
  ⟨"AMXComplex", .edx, .ExtendedFeatures2, 1 <<< 8⟩,
  ⟨"AVX_VNNI_INT16", .edx, .ExtendedFeatures2, 1 <<< 10⟩,
  ⟨"PREFETCHI", .edx, .ExtendedFeatures2, 1 <<< 14⟩,
  ⟨"UserMSR", .edx, .ExtendedFeatures2, 1 <<< 15⟩,
  ⟨"UIRetUIFFromRFlags", .edx, .ExtendedFeatures2, 1 <<< 17⟩,
  ⟨"CET_SSS", .edx, .ExtendedFeatures2, 1 <<< 18⟩,
  ⟨"AVX10", .edx, .ExtendedFeatures2, 1 <<< 19⟩,
  ⟨"APX_F", .edx, .ExtendedFeatures2, 1 <<< 21⟩,
  ⟨"PFSD", .edx, .ExtendedFeatures3, 1 <<< 0⟩,
  ⟨"IPREDDIS", .edx, .ExtendedFeatures3, 1 <<< 1⟩,
  ⟨"RRSBACtrl", .edx, .ExtendedFeatures3, 1 <<< 2⟩,
  ⟨"DPPDU", .edx, .ExtendedFeatures3, 1 <<< 3⟩,
  ⟨"BHICtrl", .edx, .ExtendedFeatures3, 1 <<< 4⟩,
  ⟨"MCDT_NO", .edx, .ExtendedFeatures3, 1 <<< 5⟩,
  ⟨"Syscall", .edx, .ExtendedFeatures4, 1 <<< 11⟩,
  ⟨"NX", .edx, .ExtendedFeatures4, 1 <<< 20⟩,
  ⟨"FXSROpt", .edx, .ExtendedFeatures4, 1 <<< 25⟩,
  ⟨"GigabytePages", .edx, .ExtendedFeatures4, 1 <<< 26⟩,
  ⟨"RDTSCP", .edx, .ExtendedFeatures4, 1 <<< 27⟩,
  ⟨"LongMode", .edx, .ExtendedFeatures4, 1 <<< 29⟩,
  ⟨"Ext3dNow", .edx, .ExtendedFeatures4, 1 <<< 30⟩,
  ⟨"F3DNow", .edx, .ExtendedFeatures4, 1 <<< 31⟩,
  ⟨"LAHF_LM", .ecx, .ExtendedFeatures4, 1 <<< 0⟩,
  ⟨"CmpLegacy", .ecx, .ExtendedFeatures4, 1 <<< 1⟩,
  ⟨"SecureVM", .ecx, .ExtendedFeatures4, 1 <<< 2⟩,
  ⟨"ExtendedAPIC", .ecx, .ExtendedFeatures4, 1 <<< 3⟩,
  ⟨"CR8Legacy", .ecx, .ExtendedFeatures4, 1 <<< 4⟩,
  ⟨"ABM", .ecx, .ExtendedFeatures4, 1 <<< 5⟩,
  ⟨"SSE4a", .ecx, .ExtendedFeatures4, 1 <<< 6⟩,
  ⟨"MisalignedSSE", .ecx, .ExtendedFeatures4, 1 <<< 7⟩,
  ⟨"Prefetch3DNow", .ecx, .ExtendedFeatures4, 1 <<< 8⟩,
  ⟨"OSVW", .ecx, .ExtendedFeatures4, 1 <<< 9⟩,
  ⟨"IBS", .ecx, .ExtendedFeatures4, 1 <<< 10⟩,
  ⟨"XOP", .ecx, .ExtendedFeatures4, 1 <<< 11⟩,
  ⟨"SKINIT", .ecx, .ExtendedFeatures4, 1 <<< 12⟩,
  ⟨"WatchdogTimer", .ecx, .ExtendedFeatures4, 1 <<< 13⟩,
  ⟨"LWP", .ecx, .ExtendedFeatures4, 1 <<< 15⟩
]

/-- Chunk 6 of the `CPUFeature` catalog declared by `cpu_features!` in
src/src/x86/mod.rs lines 375-587, in declaration order. -/
def catalogChunk6 : List FeatureSpec := [
  ⟨"FMA4", .ecx, .ExtendedFeatures4, 1 <<< 16⟩,
  ⟨"TCE", .ecx, .ExtendedFeatures4, 1 <<< 17⟩,
  ⟨"NodeIdMSR", .ecx, .ExtendedFeatures4, 1 <<< 19⟩,
  ⟨"TBM", .ecx, .ExtendedFeatures4, 1 <<< 20⟩,
  ⟨"TopoExt", .ecx, .ExtendedFeatures4, 1 <<< 22⟩,
  ⟨"PrefCtrCoe", .ecx, .ExtendedFeatures4, 1 <<< 23⟩,
  ⟨"PrefCtrNb", .ecx, .ExtendedFeatures4, 1 <<< 24⟩,
  ⟨"StreamPerfMon", .ecx, .ExtendedFeatures4, 1 <<< 25⟩,
  ⟨"DBX", .ecx, .ExtendedFeatures4, 1 <<< 26⟩,
  ⟨"PerfTSC", .ecx, .ExtendedFeatures4, 1 <<< 27⟩,
  ⟨"PCXL2I", .ecx, .ExtendedFeatures4, 1 <<< 28⟩,
  ⟨"MonitorX", .ecx, .ExtendedFeatures4, 1 <<< 29⟩,
  ⟨"AddrMaskExt", .ecx, .ExtendedFeatures4, 1 <<< 30⟩
]

/-- The full `CPUFeature` catalog, in declaration order. -/
def catalog : List FeatureSpec :=
  catalogChunk1 ++ catalogChunk2 ++ catalogChunk3 ++ catalogChunk4 ++ catalogChunk5 ++ catalogChunk6

/-- The expansion of `CPUFeature::enabled_features_by(request, vec)` from the
`cpu_features!` macro (src/src/x86/macros.rs lines 161-168 and the identical
copy in src/src/x86/cpuid.rs lines 47-54): it queries `request.cpuid()` once
(the response is the explicit `cpuid` argument) and then, for every catalog
entry in declaration order, pushes the feature when its request equals
`request` and `(cpuid.$register & $value) == $value`. -/
def enabled_features_by (request : CPUIDRequest) (cpuid : CpuidResult) : List FeatureSpec :=
  catalog.filter fun f => f.request == request && (cpuid.reg f.reg &&& f.mask == f.mask)

/-- The list of requests `CPUFeature::enabled_features` queries in the
src/src/x86/macros.rs copy of `cpu_features!` (lines 143-159): one
`request.cpuid()` hardware query is issued per element, in this order. -/
def issuedRequests : List CPUIDRequest :=
  [.Features, .ExtendedFeatures1, .ExtendedFeatures2, .ExtendedFeatures3, .ExtendedFeatures4]

/-- The list of requests `CPUFeature::enabled_features` queries in the
src/src/x86/cpuid.rs copy of `cpu_features!` (lines 29-36): note that
`ExtendedFeatures4` is absent. -/
def issuedRequests_cpuid : List CPUIDRequest :=
  [.Features, .ExtendedFeatures1, .ExtendedFeatures2, .ExtendedFeatures3]

/-- `CPUFeature::enabled_features()` as expanded by the src/src/x86/macros.rs
copy of `cpu_features!`: the hardware is modelled by the `oracle` mapping each
request to its response; `oracle r` is evaluated exactly once per element of
`issuedRequests`. -/
def enabled_features (oracle : CPUIDRequest → CpuidResult) : List FeatureSpec :=
  (issuedRequests.map fun r => enabled_features_by r (oracle r)).flatten

/-- `CPUFeature::enabled_features()` as expanded by the src/src/x86/cpuid.rs
copy of `cpu_features!`: identical except that `ExtendedFeatures4` is never
queried. -/
def enabled_features_cpuid (oracle : CPUIDRequest → CpuidResult) : List FeatureSpec :=
  (issuedRequests_cpuid.map fun r => enabled_features_by r (oracle r)).flatten

/-- One entry of the ARM `cpu_features!` catalog (src/src/arm/macros.rs): the
variant name, its system-register name, its bit range and its expected bit
pattern. -/
structure ArmFeatureSpec where
  tag : String
  reg : String
  startBit : Nat
  stopBit : Nat
  mask : Nat
deriving DecidableEq

/-- The ARM `CPUFeature` catalog declared in src/src/arm/mod.rs. -/
def armCatalog : List ArmFeatureSpec := [⟨"CRC32", "ID_AA64ISAR0_EL1", 16, 20, 0b0001⟩]

/-- The expansion of the ARM `CPUFeature::enabled_features_of(register, data, features)`
(src/src/arm/macros.rs lines 51-57): for every catalog entry in declaration
order, pushes the feature when its register name equals `register` and
`(data.get_bits(start..end) & $value) == $value`. -/
def enabled_features_of (register : String) (data : Nat) : List ArmFeatureSpec :=
  armCatalog.filter fun f =>
    f.reg == register && (getBits data f.startBit f.stopBit &&& f.mask == f.mask)

/-- Decoding the index of a selector built by `SegmentSelector.new` with the
GDT table kind recovers the index argument when it is below 8192. -/
theorem SegmentSelector.index_new_GDT (c : Nat) (p : PrivilegeLevel) (hc : c < 8192) :
    (SegmentSelector.new c .GDT p).index = c := by
  have he : p.toBits >>> 5 < 8 := by cases p <;> decide
  have hmod : (c <<< 3) % 2 ^ 16 = c <<< 3 := by
    apply Nat.mod_eq_of_lt
    rw [Nat.shiftLeft_eq]
    omega
  show (((c <<< 3) % 2 ^ 16 ||| DescriptorTable.GDT.toBits ||| (p.toBits >>> 5)) >>> 3) = c
  rw [show DescriptorTable.GDT.toBits = 0 from rfl, Nat.or_zero, hmod]
  apply Nat.eq_of_testBit_eq
  intro i
  rw [Nat.testBit_shiftRight, Nat.testBit_lor, Nat.testBit_shiftLeft]
  have hlt : p.toBits >>> 5 < 2 ^ (3 + i) := by
    have h2 : (2:Nat) ^ 3 ≤ 2 ^ (3 + i) := Nat.pow_le_pow_right (by norm_num) (by omega)
    omega
  rw [Nat.testBit_lt_two_pow hlt]
  simp

/-- As long as the table stays below the capacity guard and every pushed
descriptor's privilege bits decode, a sequence of pushes succeeds, increments
`count` once per descriptor, and hands out the successive slot indices. -/
theorem pushAll_spec (ds : List GDTDescriptor) (t : GlobalDescriptorTable)
    (hdec : ∀ d ∈ ds, (GDTDescriptor.privilege_level d).isSome = true)
    (hcap : t.count + ds.length ≤ 8191) :
    (pushAll t ds).1.count = t.count + ds.length ∧
    ∀ k, k < ds.length → ∃ sel, (pushAll t ds).2[k]? = some (some (some sel)) ∧
      sel.index = t.count + k := by
  induction ds generalizing t with
  | nil => simp [pushAll]
  | cons d rest ih =>
    have hlen : (d :: rest).length = rest.length + 1 := rfl
    have hfull : ¬ 8192 ≤ t.count + 1 := by rw [hlen] at hcap; omega
    obtain ⟨p, hp⟩ := Option.isSome_iff_exists.mp (hdec d (by simp))
    have hpush : t.push d =
        (⟨fun i => if i = t.count then d else t.descriptors i, t.count + 1⟩,
          some (some (SegmentSelector.new t.count .GDT p))) := by
      unfold GlobalDescriptorTable.push
      rw [if_neg hfull, hp]
    have hrec : pushAll t (d :: rest) =
        ((pushAll (t.push d).1 rest).1, (t.push d).2 :: (pushAll (t.push d).1 rest).2) := rfl
    rw [hrec, hpush]
    have hih := ih (⟨fun i => if i = t.count then d else t.descriptors i, t.count + 1⟩)
      (fun d hd => hdec d (by simp [hd])) (by rw [hlen] at hcap; simpa using by omega)
    refine ⟨?_, ?_⟩
    · rw [hih.1, hlen]
      show t.count + 1 + rest.length = t.count + (rest.length + 1)
      omega
    · intro k hk
      cases k with
      | zero =>
        refine ⟨SegmentSelector.new t.count .GDT p, by simp, ?_⟩
        rw [SegmentSelector.index_new_GDT t.count p (by rw [hlen] at hcap; omega)]
        omega
      | succ k =>
        obtain ⟨sel, hsel, hidx⟩ := hih.2 k (by rw [hlen] at hk; omega)
        refine ⟨sel, by simpa using hsel, ?_⟩
        rw [hidx]
        show t.count + 1 + k = t.count + (k + 1)
        omega

/-- A push never touches slot 0 and never decreases `count` below 1. -/
theorem pushAll_preserves_slot_zero (ds : List GDTDescriptor) (t : GlobalDescriptorTable)
    (h1 : 1 ≤ t.count) :
    (pushAll t ds).1.descriptors 0 = t.descriptors 0 ∧ 1 ≤ (pushAll t ds).1.count := by
  induction ds generalizing t with
  | nil => exact ⟨rfl, h1⟩
  | cons d rest ih =>
    have hstep : (t.push d).1.descriptors 0 = t.descriptors 0 ∧ 1 ≤ (t.push d).1.count := by
      unfold GlobalDescriptorTable.push
      by_cases hc : 8192 ≤ t.count + 1
      · rw [if_pos hc]
        exact ⟨rfl, h1⟩
      · rw [if_neg hc]
        cases hp : GDTDescriptor.privilege_level d with
        | none =>
          refine ⟨?_, by show 1 ≤ t.count + 1; omega⟩
          show (if (0:Nat) = t.count then d else t.descriptors 0) = t.descriptors 0
          rw [if_neg (by omega)]
        | some p =>
          refine ⟨?_, by show 1 ≤ t.count + 1; omega⟩
          show (if (0:Nat) = t.count then d else t.descriptors 0) = t.descriptors 0
          rw [if_neg (by omega)]
    have hrest := ih (t.push d).1 hstep.2
    have hEq : pushAll t (d :: rest) =
        ((pushAll (t.push d).1 rest).1, (t.push d).2 :: (pushAll (t.push d).1 rest).2) := rfl
    refine ⟨?_, ?_⟩
    · rw [hEq]
      exact hrest.1.trans hstep.1
    · rw [hEq]
      exact hrest.2

/-- C1: the claimed selector round-trip (index, table, privilege all read back
exactly) FAILS on the code.  `new(0, LDT, KernelSpace)` produces raw value 8
(the LDT discriminant is bit 3), which `table()` (bit 2) decodes as GDT and
`index()` decodes as 1; and `new(0, GDT, UserSpace)` stores privilege bits
0b11, which `privilege_level()` aborts on because `From<u16>` matches 0x4
instead of 0x3.  The round-trip does hold for GDT selectors with privilege in
{KernelSpace, Ring1, Ring2}, shown here at index 5, Ring2. -/
theorem selector_roundtrip_fails_on_code :
    (SegmentSelector.new 0 .LDT .KernelSpace).table = .GDT ∧
    (SegmentSelector.new 0 .LDT .KernelSpace).index = 1 ∧
    (SegmentSelector.new 0 .GDT .UserSpace).privilege_level = none ∧
    (SegmentSelector.new 5 .GDT .Ring2).index = 5 ∧
    (SegmentSelector.new 5 .GDT .Ring2).table = .GDT ∧
    (SegmentSelector.new 5 .GDT .Ring2).privilege_level = some .Ring2 := by decide

/-- C2: pushing `code_segment(UserSpace)` does NOT return a selector decoding
to UserSpace: the descriptor's access byte is 0xFF, its privilege bits
(bits 5..7) are 0b11, and `PrivilegeLevel::from` aborts on 3 (it matches 0x4
instead), so `push` aborts (modelled by `none`) instead of returning a
selector. -/
theorem push_userspace_code_segment_aborts :
    (GDTDescriptor.code_segment .UserSpace).privilege_level = none ∧
    (GlobalDescriptorTable.new.push (GDTDescriptor.code_segment .UserSpace)).2 = none := by
  decide

/-- C3 counterexample: "every push succeeds until count reaches 8191" is false
as stated.  From the freshly constructed table (`count = 1`, far below 8191)
the very first push of `code_segment(UserSpace)` — a descriptor built by the
API's own constructor — does not succeed: it aborts (outcome `none`) in
`PrivilegeLevel::from`, because the descriptor's privilege bits are 0b11. -/
theorem gdt_capacity_law_counterexample :
    GlobalDescriptorTable.new.count = 1 ∧
    (pushAll GlobalDescriptorTable.new [GDTDescriptor.code_segment .UserSpace]).2 = [none] := by
  decide

/-- C3 (amended): capacity law, restricted to descriptors whose privilege bits
decode (access bits 5..7 in {0, 1, 2}; pushes of other descriptors abort, see
the counterexample).  Starting from a freshly constructed table (`count = 1`),
pushing any sequence of such descriptors succeeds for up to 8190 descriptors,
handing out the strictly increasing indices 1, 2, ... and ending with
`count = 1 + n`; and a push onto any table with `count = 8191` returns `None`
and leaves the table (count and storage) unchanged. -/
theorem gdt_capacity_law :
    (∀ ds : List GDTDescriptor,
        (∀ d ∈ ds, (GDTDescriptor.privilege_level d).isSome = true) → ds.length ≤ 8190 →
        (pushAll GlobalDescriptorTable.new ds).1.count = 1 + ds.length ∧
        ∀ k, k < ds.length → ∃ sel,
          (pushAll GlobalDescriptorTable.new ds).2[k]? = some (some (some sel)) ∧
          sel.index = 1 + k)
    ∧ ∀ (t : GlobalDescriptorTable) (d : GDTDescriptor), t.count = 8191 →
        t.push d = (t, some none) := by
  constructor
  · intro ds h1 h2
    exact pushAll_spec ds GlobalDescriptorTable.new h1 (by show 1 + ds.length ≤ 8191; omega)
  · intro t d h
    unfold GlobalDescriptorTable.push
    rw [if_pos (by omega)]

/-- Witness for C3: one successful push from the fresh table, and the rejected
push on a table with `count = 8191`. -/
theorem gdt_capacity_law_witness :
    ((∀ d ∈ [GDTDescriptor.code_segment .KernelSpace],
        (GDTDescriptor.privilege_level d).isSome = true) ∧
      [GDTDescriptor.code_segment .KernelSpace].length ≤ 8190) ∧
    (pushAll GlobalDescriptorTable.new [GDTDescriptor.code_segment .KernelSpace]).1.count = 1 + 1 ∧
    (GlobalDescriptorTable.mk (fun _ => GDTDescriptor.null) 8191).push GDTDescriptor.null =
      (GlobalDescriptorTable.mk (fun _ => GDTDescriptor.null) 8191, some none) := by
  refine ⟨⟨by decide, by decide⟩, ?_, ?_⟩
  · exact (gdt_capacity_law.1 [GDTDescriptor.code_segment .KernelSpace] (by decide) (by decide)).1
  · exact gdt_capacity_law.2 _ GDTDescriptor.null rfl

/-- C4 counterexample: writing the empty flag set does NOT leave bits outside
the named flag set unchanged.  Bit 6 is not a named `CR0Flags` bit, yet
`set_cr0(empty)` on a register reading `1 << 6` writes 0: the unnamed bit is
zeroed because `get_cr0` truncates it away before the union. -/
theorem cr_flag_write_clears_unnamed_bits :
    set_cr0 0 (1 <<< 6) = 0 ∧ (1 <<< 6) &&& CR0Flags.mask = 0 ∧ (1 <<< 6) ≠ 0 := by decide

/-- C4 (amended): for cr0, cr3 and cr4 the generated `set` writes
`desired | (current & named_mask)`: it is a read-modify-write union over the
NAMED bits only, so a named bit currently set is never cleared and writing the
empty flag set reduces the register to `current & named_mask`, zeroing (not
preserving) every bit outside the named flag set. -/
theorem cr_flag_write_is_union_of_named_bits :
    (∀ value raw : Nat, set_cr0 value raw = value ||| (raw &&& CR0Flags.mask)) ∧
    (∀ value raw : Nat, set_cr3 value raw = value ||| (raw &&& CR3Flags.mask)) ∧
    (∀ value raw : Nat, set_cr4 value raw = value ||| (raw &&& CR4Flags.mask)) ∧
    (∀ raw : Nat, set_cr0 0 raw = raw &&& CR0Flags.mask) ∧
    (∀ raw : Nat, set_cr3 0 raw = raw &&& CR3Flags.mask) ∧
    (∀ raw : Nat, set_cr4 0 raw = raw &&& CR4Flags.mask) ∧
    (∀ value raw i : Nat, Nat.testBit (raw &&& CR0Flags.mask) i = true →
      Nat.testBit (set_cr0 value raw) i = true) := by
  refine ⟨fun v r => rfl, fun v r => rfl, fun v r => rfl, ?_, ?_, ?_, ?_⟩
  · intro raw
    show 0 ||| (raw &&& CR0Flags.mask) = raw &&& CR0Flags.mask
    simp
  · intro raw
    show 0 ||| (raw &&& CR3Flags.mask) = raw &&& CR3Flags.mask
    simp
  · intro raw
    show 0 ||| (raw &&& CR4Flags.mask) = raw &&& CR4Flags.mask
    simp
  · intro v r i h
    show Nat.testBit (v ||| (r &&& CR0Flags.mask)) i = true
    rw [Nat.testBit_lor, h, Bool.or_true]

/-- Witness for C4 (amended): the named PAGING bit (bit 31) of cr0 survives a
write of the empty flag set. -/
theorem cr_flag_write_is_union_of_named_bits_witness :
    Nat.testBit ((1 <<< 31) &&& CR0Flags.mask) 31 = true ∧
    Nat.testBit (set_cr0 0 (1 <<< 31)) 31 = true :=
  ⟨by decide, cr_flag_write_is_union_of_named_bits.2.2.2.2.2.2 0 (1 <<< 31) 31 (by decide)⟩

/-- C5: the mutators do NOT each replace only their own bit field.
`set_index` writes bits 0..16, i.e. the whole selector word: on the selector
0x0000 (table GDT), `set_index(4)` yields raw value 4, whose table field is
now LDT and whose index field is 0, not 4; and `set_privilege_level` passes
the unshifted discriminant (0x20 for Ring1) to `set_bits(0..2, _)`, which
aborts because it does not fit in two bits (only `KernelSpace` = 0 fits).
`set_table` alone is frame-correct, shown on the same input. -/
theorem selector_mutators_clobber_other_fields :
    (SegmentSelector.mk 0).set_index 4 = some (SegmentSelector.mk 4) ∧
    (SegmentSelector.mk 0).table = DescriptorTable.GDT ∧
    (SegmentSelector.mk 4).table = DescriptorTable.LDT ∧
    (SegmentSelector.mk 4).index = 0 ∧
    (SegmentSelector.mk 0).set_privilege_level .Ring1 = none ∧
    (SegmentSelector.mk 0).set_table .LDT = SegmentSelector.mk 4 ∧
    ((SegmentSelector.mk 0).set_table .LDT).index = 0 ∧
    ((SegmentSelector.mk 0).set_table .LDT).privilege_level = some .KernelSpace := by decide

/-- C6: the `enabled_features` expanded from the src/src/x86/cpuid.rs copy of
`cpu_features!` does NOT issue one query per distinct catalog request: it
never queries `ExtendedFeatures4`, so the catalog entry `Syscall` (mask
`1 << 11` in edx of `ExtendedFeatures4`) is never reported even when every
response bit is set — no query decides it.  The duplicate macro copy in
src/src/x86/macros.rs queries all five requests and does report it. -/
theorem enabled_features_cpuid_skips_extfeatures4 :
    (⟨"Syscall", .edx, .ExtendedFeatures4, 1 <<< 11⟩ : FeatureSpec) ∈ catalog ∧
    CpuidResult.reg ⟨0xFFFFFFFF, 0xFFFFFFFF, 0xFFFFFFFF, 0xFFFFFFFF⟩ .edx &&& (1 <<< 11) =
      1 <<< 11 ∧
    CPUIDRequest.ExtendedFeatures4 ∉ issuedRequests_cpuid ∧
    (⟨"Syscall", .edx, .ExtendedFeatures4, 1 <<< 11⟩ : FeatureSpec) ∉
      enabled_features_cpuid (fun _ => ⟨0xFFFFFFFF, 0xFFFFFFFF, 0xFFFFFFFF, 0xFFFFFFFF⟩) ∧
    CPUIDRequest.ExtendedFeatures4 ∈ issuedRequests ∧
    (⟨"Syscall", .edx, .ExtendedFeatures4, 1 <<< 11⟩ : FeatureSpec) ∈
      enabled_features (fun _ => ⟨0xFFFFFFFF, 0xFFFFFFFF, 0xFFFFFFFF, 0xFFFFFFFF⟩) := by decide

/-- C7: feature matching is an exact AND-equality test, on x86 and on ARM: a
catalog entry is reported by the per-request matcher if and only if it belongs
to the catalog, references the issued request (resp. the read register), and
every one of its mask bits is set in the designated output register of the
response.  In particular a partially set mask is never reported. -/
theorem feature_matching_is_exact_mask :
    (∀ (request : CPUIDRequest) (resp : CpuidResult) (f : FeatureSpec),
        f ∈ enabled_features_by request resp ↔
          f ∈ catalog ∧ f.request = request ∧ resp.reg f.reg &&& f.mask = f.mask) ∧
    (∀ (register : String) (data : Nat) (f : ArmFeatureSpec),
        f ∈ enabled_features_of register data ↔
          f ∈ armCatalog ∧ f.reg = register ∧
            getBits data f.startBit f.stopBit &&& f.mask = f.mask) := by
  constructor
  · intro request resp f
    unfold enabled_features_by
    rw [List.mem_filter]
    simp [and_assoc]
  · intro register data f
    unfold enabled_features_of
    rw [List.mem_filter]
    simp [and_assoc]

/-- C9: `GDTDescriptor::new` stores bits 16..24 of the base address in BOTH
`middle_base_address` and `higher_base_address`, and no field of the
descriptor depends on bits 24..32 of the base address (the descriptor built
from `base` equals the one built from `base % 2^24`). -/
theorem descriptor_base_address_bits (base limit : Nat) (p : PrivilegeLevel)
    (access flags : Nat) :
    (GDTDescriptor.new base limit p access flags).middle_base_address = getBits base 16 24 ∧
    (GDTDescriptor.new base limit p access flags).higher_base_address = getBits base 16 24 ∧
    GDTDescriptor.new base limit p access flags =
      GDTDescriptor.new (base % 2 ^ 24) limit p access flags := by
  refine ⟨rfl, rfl, ?_⟩
  unfold GDTDescriptor.new
  have h1 : base % 2 ^ 24 % 2 ^ 16 = base % 2 ^ 16 := Nat.mod_mod_of_dvd base (by norm_num)
  have h2 : ((base % 2 ^ 24) >>> 16) % 2 ^ 8 = (base >>> 16) % 2 ^ 8 := by
    rw [Nat.shiftRight_eq_div_pow, Nat.shiftRight_eq_div_pow,
      show (2:Nat) ^ 24 = 2 ^ 16 * 2 ^ 8 by norm_num, Nat.mod_mul_right_div_self]
    exact Nat.mod_mod_of_dvd _ dvd_rfl
  rw [h1, h2]

/-- C10: the descriptor built by `GDTDescriptor::new` depends on the limit only
through its low 16 bits (stored in `lower_limit_address`) and its low 3 bits
(ORed into the access byte together with the access bits and the privilege
discriminant); bits 16..20 of the limit are stored nowhere, and the flags byte
is exactly the `flags.bits()` argument. -/
theorem descriptor_limit_and_flags_bits (base limit : Nat) (p : PrivilegeLevel)
    (access flags : Nat) :
    GDTDescriptor.new base limit p access flags =
      GDTDescriptor.new base (limit % 2 ^ 16) p access flags ∧
    (GDTDescriptor.new base limit p access flags).flags = flags ∧
    (GDTDescriptor.new base limit p access flags).access =
      (limit % 2 ^ 3) ||| access ||| p.toBits ∧
    (GDTDescriptor.new base limit p access flags).lower_limit_address = limit % 2 ^ 16 := by
  refine ⟨?_, rfl, rfl, rfl⟩
  unfold GDTDescriptor.new
  have h1 : limit % 2 ^ 16 % 2 ^ 16 = limit % 2 ^ 16 := Nat.mod_mod_of_dvd _ dvd_rfl
  have h2 : getBits (limit % 2 ^ 16) 0 3 = getBits limit 0 3 := by
    show limit % 2 ^ 16 % 2 ^ 3 = limit % 2 ^ 3
    exact Nat.mod_mod_of_dvd _ (by norm_num)
  rw [h1, h2]

/-- C8: a freshly constructed table has the all-zero null descriptor at
entry 0 and `count = 1`, and after any sequence of pushes entry 0 is still the
null descriptor (pushes only write at the current `count`, which starts at 1
and never decreases). -/
theorem null_descriptor_invariant :
    GlobalDescriptorTable.new.descriptors 0 = GDTDescriptor.null ∧
    GlobalDescriptorTable.new.count = 1 ∧
    ∀ ds : List GDTDescriptor,
      (pushAll GlobalDescriptorTable.new ds).1.descriptors 0 = GDTDescriptor.null ∧
      1 ≤ (pushAll GlobalDescriptorTable.new ds).1.count :=
  ⟨rfl, rfl, fun ds =>
    pushAll_preserves_slot_zero ds GlobalDescriptorTable.new (Nat.le_refl 1)⟩
